import Mathlib

/-!
Shallow embedding of `time_tracker.py`, a single-file interactive time
tracker.  Timestamps are modelled as absolute seconds since the epoch
1970-01-01 00:00:00 (local naive time); a calendar day is the absolute
second count divided by 86400, and the civil (day, month, year) view of a
day index is computed by the standard Gregorian conversion, matching what
Python's `datetime` produces for the `%d-%m-%Y`, `%H:%M:%S` and `%A`
format codes used by the script.
-/

namespace TimeTracker

/-- Gregorian civil date (year, month, day) of a day index counted from
1970-01-01 (day 0), via the standard days-to-civil conversion. -/
def civilFromDays (z0 : Nat) : Nat × Nat × Nat :=
  let z := z0 + 719468
  let era := z / 146097
  let doe := z % 146097
  let yoe := (doe - doe / 1460 + doe / 36524 - doe / 146096) / 365
  let y := yoe + era * 400
  let doy := doe - (365 * yoe + yoe / 4 - yoe / 100)
  let mp := (5 * doy + 2) / 153
  let d := doy - (153 * mp + 2) / 5 + 1
  let m := if mp < 10 then mp + 3 else mp - 9
  (if m ≤ 2 then y + 1 else y, m, d)

/-- Day index (days since 1970-01-01) of a Gregorian civil date, the
inverse of `civilFromDays` on valid dates. -/
def daysFromCivil (y m d : Nat) : Nat :=
  let y2 := if m ≤ 2 then y - 1 else y
  let era := y2 / 400
  let yoe := y2 % 400
  let mp := if 2 < m then m - 3 else m + 9
  let doy := (153 * mp + 2) / 5 + (d - 1)
  let doe := yoe * 365 + yoe / 4 - yoe / 100 + doy
  era * 146097 + doe - 719468

/-- Python `datetime.weekday()`: Monday = 0 … Sunday = 6.  Day 0
(1970-01-01) was a Thursday, hence the offset 3. -/
def weekday (day : Nat) : Nat := (day + 3) % 7

/-- Zero-pad a number to two digits, as the `%d`, `%m`, `%H`, `%M`, `%S`
format codes do. -/
def pad2 (n : Nat) : String :=
  if n < 10 then "0" ++ toString n else toString n

/-- Zero-pad a year to four digits, as the `%Y` format code does. -/
def pad4 (n : Nat) : String :=
  if n < 10 then "000" ++ toString n
  else if n < 100 then "00" ++ toString n
  else if n < 1000 then "0" ++ toString n
  else toString n

/-- `strftime('%d-%m-%Y')` applied to a day index. -/
def fmtDMY (day : Nat) : String :=
  let c := civilFromDays day
  pad2 c.2.2 ++ "-" ++ pad2 c.2.1 ++ "-" ++ pad4 c.1

/-- `strftime('%H:%M:%S')` applied to a second-of-day value. -/
def fmtHMS (sec : Nat) : String :=
  pad2 (sec / 3600) ++ ":" ++ pad2 (sec % 3600 / 60) ++ ":" ++ pad2 (sec % 60)

/-- One persisted time entry, the dict built at `stop_tracking` lines
139-144: all four fields are strings. -/
structure Entry where
  date : String
  start_time : String
  end_time : String
  duration : String
deriving DecidableEq, Repr

/-- Lines 123-124: `hours, remainder = divmod(int(total_seconds), 3600);
minutes, seconds = divmod(remainder, 60)`. -/
def durationParts (totalSeconds : Nat) : Nat × Nat :=
  (totalSeconds / 3600, totalSeconds % 3600 / 60)

/-- The stored duration text `f"{hours}h{minutes}m"` (line 143). -/
def durationText (totalSeconds : Nat) : String :=
  toString (durationParts totalSeconds).1 ++ "h" ++
    toString (durationParts totalSeconds).2 ++ "m"

/-- The entry dict built by `stop_tracking` (lines 121-124 and 139-144)
from the absolute start and end instants: the date is the START instant's
calendar date, the two time fields are time-of-day strings, and the
duration is computed from the full timestamps. -/
def mkEntry (startAbs endAbs : Nat) : Entry :=
  { date := fmtDMY (startAbs / 86400)
    start_time := fmtHMS (startAbs % 86400)
    end_time := fmtHMS (endAbs % 86400)
    duration := durationText (endAbs - startAbs) }

/-- The JSON store file: `none` = file absent, `some (.error _)` =
present but `json.load` raises `JSONDecodeError`, `some (.ok es)` =
parses as a list of entries. -/
abbrev StoreFile := Option (Except String (List Entry))

/-- `load_time_entries` (lines 40-48): `[]` when the file does not exist,
`[]` when `json.load` raises `JSONDecodeError`, otherwise the parsed
entries.  Total: it raises nothing in the modelled cases. -/
def load_time_entries (file : StoreFile) : List Entry :=
  match file with
  | none => []
  | some (Except.error _) => []
  | some (Except.ok es) => es

/-- `append_to_csv` (lines 62-80): the row append is wrapped in
`try/except Exception`, so a failing write (`csvFail = true`) is logged
and swallowed, leaving the CSV rows unchanged; on success the row is
appended. -/
def append_to_csv (rows : List Entry) (e : Entry) (csvFail : Bool) : List Entry :=
  if csvFail then rows else rows ++ [e]

deriving instance DecidableEq for Except

/-- The script's global mutable state (lines 28-32) together with the two
files it writes: `is_tracking`, `start_time` (absolute seconds, meaningful
while tracking), `stop_event`, whether the auto-stop timer is armed, the
JSON store file and the master CSV rows.  The fault flags passed to the
operations below choose the outcome of the two fallible writes: `jsonFail`
makes `save_time_entries` raise an I/O error, `csvFail` makes the CSV row
write raise (which `append_to_csv` catches itself). -/
structure TrackerState where
  is_tracking : Bool
  start_time : Nat
  stop_event : Bool
  timerArmed : Bool
  jsonFile : StoreFile
  csvRows : List Entry
deriving DecidableEq, Repr

/-- `append_time_entry` (lines 55-60): load the store, append the entry,
save (`save_time_entries`, lines 50-53, has no handler — a raising write
propagates, returned as `some msg`, with the store file unchanged), then
append to the CSV (whose own failure is swallowed by `append_to_csv`). -/
def append_time_entry (st : TrackerState) (e : Entry) (jsonFail csvFail : Bool) :
    TrackerState × Option String :=
  let entries := load_time_entries st.jsonFile ++ [e]
  if jsonFail then (st, some "IOError in save_time_entries")
  else
    ({ st with jsonFile := some (Except.ok entries)
               csvRows := append_to_csv st.csvRows e csvFail }, none)

/-- `start_tracking` (lines 93-113): when already tracking, print a notice
and return with nothing changed; otherwise set the flag, record the start
instant and arm the auto-stop timer (the display and key-listener threads
are not otherwise modelled). -/
def start_tracking (st : TrackerState) (now : Nat) : TrackerState :=
  if st.is_tracking then st
  else { st with is_tracking := true, start_time := now, timerArmed := true }

/-- `stop_tracking` (lines 115-153): when not tracking, print a notice and
return with nothing changed; otherwise compute the entry from the start
and end instants, cancel the auto-stop timer, run `append_time_entry`
(a raising JSON save propagates out of `stop_tracking` BEFORE lines
147-148 run), and only then clear `is_tracking` and set `stop_event`.
The second component is the propagated exception, if any. -/
def stop_tracking (st : TrackerState) (endAbs : Nat) (jsonFail csvFail : Bool) :
    TrackerState × Option String :=
  if st.is_tracking then
    let entry := mkEntry st.start_time endAbs
    let st1 : TrackerState := { st with timerArmed := false }
    let r := append_time_entry st1 entry jsonFail csvFail
    match r.2 with
    | some msg => (r.1, some msg)
    | none => ({ r.1 with is_tracking := false, stop_event := true }, none)
  else (st, none)

/-- Python string comparison, lexicographic on code points: the helper
for `<=` and `<` on the date strings of line 207. -/
def charsLe : List Char → List Char → Bool
  | [], _ => true
  | _ :: _, [] => false
  | a :: as, b :: bs =>
      if a.toNat < b.toNat then true
      else if b.toNat < a.toNat then false
      else charsLe as bs

/-- Python `a <= b` on strings. -/
def strLe (a b : String) : Bool := charsLe a.data b.data

/-- Python strict string comparison, lexicographic on code points. -/
def charsLt : List Char → List Char → Bool
  | [], [] => false
  | [], _ :: _ => true
  | _ :: _, [] => false
  | a :: as, b :: bs =>
      if a.toNat < b.toNat then true
      else if b.toNat < a.toNat then false
      else charsLt as bs

/-- Python `a < b` on strings. -/
def strLt (a b : String) : Bool := charsLt a.data b.data

/-- Monday of the current week, `now - timedelta(days=now.weekday())`
(line 198). -/
def start_of_week (day : Nat) : Nat := day - weekday day

/-- `generate_weekly_csv` (lines 195-219), data part: load the store and
keep the entries whose `date` STRING satisfies the chained comparison
`start_of_week.strftime('%d-%m-%Y') <= entry["date"] <=
end_of_week.strftime('%d-%m-%Y')` (line 207) — a lexicographic comparison
of `dd-mm-YYYY` strings.  The result is what gets written to the per-week
file when non-empty. -/
def generate_weekly_csv (file : StoreFile) (today : Nat) : List Entry :=
  let entries := load_time_entries file
  entries.filter fun e =>
    strLe (fmtDMY (start_of_week today)) e.date &&
    strLe e.date (fmtDMY (start_of_week today + 6))

/-- `schedule_weekly_csv` (lines 176-190): `now` is (day index, second of
day).  Friday has Python weekday 4, `WEEKLY_CSV_TIME = '16:00'` is second
57600.  `days_ahead = (4 - now.weekday()) % 7` (Python modulo, hence the
`Int` emod); if that is 0 and the time of day has passed 16:00, use 7.
The returned instant is the next-run day and second-of-day 57600 (the
`replace(hour, minute, second=0, microsecond=0)` of line 184). -/
def schedule_weekly_csv (day tod : Nat) : Nat × Nat :=
  let days_ahead : Nat := (((4 : Int) - (weekday day : Int)) % 7).toNat
  (day + (if days_ahead = 0 ∧ 57600 < tod then 7 else days_ahead), 57600)

/-- One terminal-attribute write (`tty.setraw` or `termios.tcsetattr`). -/
structure TermOp where
  attrs : Nat
deriving DecidableEq, Repr

/-- Applying a sequence of attribute writes to an initial terminal
configuration leaves the last written value (or the initial one). -/
def applyTermOps (init : Nat) (ops : List TermOp) : Nat :=
  ops.foldl (fun _ op => op.attrs) init

/-- `get_key_press` (lines 82-91): read the old settings, switch the
terminal to raw mode, attempt the one-character read (outcome `readRes`,
which may be an exception), and restore the old settings in a `finally`
block that runs on BOTH outcomes.  Returns the emitted sequence of
terminal-attribute writes and the call's outcome. -/
def get_key_press (init rawAttrs : Nat) (readRes : Except String Char) :
    List TermOp × Except String Char :=
  let old_settings := init
  match readRes with
  | Except.ok ch => ([⟨rawAttrs⟩, ⟨old_settings⟩], Except.ok ch)
  | Except.error e => ([⟨rawAttrs⟩, ⟨old_settings⟩], Except.error e)

/-- Program points of one thread executing `stop_tracking`, at the
granularity of the shared-state accesses: the `is_tracking` check of line
118, the record append of line 145, and the flag clear of lines 147-148.
No lock is held across these points in the source. -/
inductive StopPc where
  | atCheck
  | atAppend
  | atClear
  | finished
deriving DecidableEq, Repr

/-- Shared state plus the program counters of two concurrent
`stop_tracking` invocations (e.g. the manual key-press path and the
auto-stop timer thread). -/
structure ConcState where
  is_tracking : Bool
  records : Nat
  stop_event : Bool
  pcManual : StopPc
  pcAuto : StopPc
deriving DecidableEq, Repr

/-- One atomic step of a thread running `stop_tracking`: at the check,
return immediately when `is_tracking` is false, else proceed; at the
append, persist one record; at the clear, set `is_tracking := false` and
`stop_event`. -/
def stepStop (pc : StopPc) (tracking : Bool) (records : Nat) (stopEv : Bool) :
    StopPc × Bool × Nat × Bool :=
  match pc with
  | StopPc.atCheck =>
      if tracking then (StopPc.atAppend, tracking, records, stopEv)
      else (StopPc.finished, tracking, records, stopEv)
  | StopPc.atAppend => (StopPc.atClear, tracking, records + 1, stopEv)
  | StopPc.atClear => (StopPc.finished, false, records, true)
  | StopPc.finished => (StopPc.finished, tracking, records, stopEv)

/-- Schedule one step: `true` runs the manual-stop thread, `false` the
auto-stop thread. -/
def concStep (s : ConcState) (which : Bool) : ConcState :=
  if which then
    let r := stepStop s.pcManual s.is_tracking s.records s.stop_event
    { s with pcManual := r.1, is_tracking := r.2.1, records := r.2.2.1,
             stop_event := r.2.2.2 }
  else
    let r := stepStop s.pcAuto s.is_tracking s.records s.stop_event
    { s with pcAuto := r.1, is_tracking := r.2.1, records := r.2.2.1,
             stop_event := r.2.2.2 }

/-- Run the two concurrent `stop_tracking` invocations under a given
interleaving. -/
def concRun (s : ConcState) (sched : List Bool) : ConcState :=
  sched.foldl concStep s

/-- Both terminators start at the `is_tracking` check of an active
session, with no record yet appended. -/
def concInit : ConcState :=
  { is_tracking := true, records := 0, stop_event := false,
    pcManual := StopPc.atCheck, pcAuto := StopPc.atCheck }

/-- An idle tracker state (no active session, empty store). -/
def idleState : TrackerState :=
  { is_tracking := false, start_time := 0, stop_event := false,
    timerArmed := false, jsonFile := none, csvRows := [] }

/-- An active tracker state: a session started at absolute second 100
with the auto-stop timer armed. -/
def activeState : TrackerState :=
  { is_tracking := true, start_time := 100, stop_event := false,
    timerArmed := true, jsonFile := none, csvRows := [] }

/-- An entry dated 07-09-2026 (a September date). -/
def sepEntry : Entry :=
  { date := "07-09-2026", start_time := "09:00:00",
    end_time := "10:00:00", duration := "1h0m" }

/-- An entry dated 30-09-2026 (a Wednesday). -/
def wedEntry : Entry :=
  { date := "30-09-2026", start_time := "09:00:00",
    end_time := "10:00:00", duration := "1h0m" }

/-- `days_ahead` of `schedule_weekly_csv`, moved from Python integer
modulo to natural-number arithmetic. -/
theorem days_ahead_eq (w : Nat) (hw : w < 7) :
    (((4 : Int) - (w : Int)) % 7).toNat = (11 - w) % 7 := by
  interval_cases w <;> rfl

/-- C1 (counterexample): the filter of `generate_weekly_csv` compares
`dd-mm-YYYY` strings, not calendar dates.  On 2026-10-07 (whose ISO week
is Monday 2026-10-05 … Sunday 2026-10-11) a record dated 07-09-2026 — a
date strictly BEFORE that Monday — is included in the export; and on
2026-09-30 (week Monday 2026-09-28 … Sunday 2026-10-04) a record dated
2026-09-30 itself — a date inside the window — is excluded. -/
theorem c1_filter_not_calendar :
    (sepEntry ∈ generate_weekly_csv (some (Except.ok [sepEntry]))
        (daysFromCivil 2026 10 7) ∧
      fmtDMY (daysFromCivil 2026 9 7) = sepEntry.date ∧
      daysFromCivil 2026 9 7 < start_of_week (daysFromCivil 2026 10 7)) ∧
    (wedEntry ∉ generate_weekly_csv (some (Except.ok [wedEntry]))
        (daysFromCivil 2026 9 30) ∧
      fmtDMY (daysFromCivil 2026 9 30) = wedEntry.date ∧
      start_of_week (daysFromCivil 2026 9 30) ≤ daysFromCivil 2026 9 30 ∧
      daysFromCivil 2026 9 30 ≤ start_of_week (daysFromCivil 2026 9 30) + 6) := by
  decide

/-- C1 (amended): a record is in the per-week export exactly when it is
in the store and its date STRING lies lexicographically (Python string
order) between the `dd-mm-YYYY` strings of Monday and Sunday of the
current week — which is not calendar membership across month
boundaries. -/
theorem c1_filter_is_lexicographic (file : StoreFile) (today : Nat) (e : Entry) :
    e ∈ generate_weekly_csv file today ↔
      e ∈ load_time_entries file ∧
      strLe (fmtDMY (start_of_week today)) e.date = true ∧
      strLe e.date (fmtDMY (start_of_week today + 6)) = true := by
  simp [generate_weekly_csv, List.mem_filter]

/-- C2: the `is_tracking` check (line 118) and the clearing of the flag
(line 147) are not guarded by any lock or atomic check-and-set, so under
the interleaving in which both the manual-stop thread and the auto-stop
thread pass the check before either clears the flag, BOTH append a
record: one Start/Finalize cycle persists 2 records, not exactly one. -/
theorem c2_double_record :
    (concRun concInit [true, false, true, false, true, false]).records = 2 ∧
    (concRun concInit [true, false, true, false, true, false]).pcManual =
      StopPc.finished ∧
    (concRun concInit [true, false, true, false, true, false]).pcAuto =
      StopPc.finished := by
  decide

/-- C3 (counterexample): when the JSON store write raises
(`jsonFail = true`), the exception propagates out of `stop_tracking`
before lines 147-148 run: `is_tracking` stays `true` and `stop_event`
stays unset — the in-memory transition does NOT complete. -/
theorem c3_json_failure_blocks_transition :
    activeState.is_tracking = true ∧
    (stop_tracking activeState 3700 true false).2 ≠ none ∧
    (stop_tracking activeState 3700 true false).1.is_tracking = true ∧
    (stop_tracking activeState 3700 true false).1.stop_event = false := by
  refine ⟨rfl, ?_, rfl, rfl⟩
  simp [stop_tracking, append_time_entry, activeState]

/-- C3 (amended): a failing CSV append is caught inside `append_to_csv`,
so `stop_tracking` still completes the in-memory transition (flag
cleared, `stop_event` set, record saved to the JSON store); a failing
JSON store write instead propagates and leaves `is_tracking` and
`stop_event` untouched. -/
theorem c3_transition_survives_csv_failure (st : TrackerState) (endAbs : Nat)
    (h : st.is_tracking = true) :
    ((stop_tracking st endAbs false true).2 = none ∧
     (stop_tracking st endAbs false true).1.is_tracking = false ∧
     (stop_tracking st endAbs false true).1.stop_event = true ∧
     (stop_tracking st endAbs false true).1.jsonFile =
       some (Except.ok (load_time_entries st.jsonFile ++
         [mkEntry st.start_time endAbs])) ∧
     (stop_tracking st endAbs false true).1.csvRows = st.csvRows) ∧
    (∀ cf : Bool,
      (stop_tracking st endAbs true cf).2 ≠ none ∧
      (stop_tracking st endAbs true cf).1.is_tracking = true ∧
      (stop_tracking st endAbs true cf).1.stop_event = st.stop_event) := by
  constructor
  · simp [stop_tracking, append_time_entry, append_to_csv, h]
  · intro cf
    simp [stop_tracking, append_time_entry, h]

/-- C3 (witness). -/
theorem c3_transition_survives_csv_failure_witness :
    activeState.is_tracking = true ∧
    (stop_tracking activeState 3700 false true).1.is_tracking = false ∧
    (stop_tracking activeState 3700 false true).1.stop_event = true ∧
    (stop_tracking activeState 3700 false true).1.csvRows = activeState.csvRows :=
  ⟨rfl,
   (c3_transition_survives_csv_failure activeState 3700 rfl).1.2.1,
   (c3_transition_survives_csv_failure activeState 3700 rfl).1.2.2.1,
   (c3_transition_survives_csv_failure activeState 3700 rfl).1.2.2.2.2⟩

/-- C4: the stored duration is the full-timestamp difference rendered as
whole hours `⌊s/3600⌋` and whole minutes `⌊(s mod 3600)/60⌋` with seconds
truncated; 09:00:00 → 17:00:00 gives "8h0m" and 09:00:00 → 09:00:59
gives "0h0m". -/
theorem c4_duration_truncated :
    (∀ s e : Nat, s ≤ e →
      (mkEntry s e).duration =
        toString ((e - s) / 3600) ++ "h" ++
          toString ((e - s) % 3600 / 60) ++ "m") ∧
    (mkEntry 32400 61200).duration = "8h0m" ∧
    (mkEntry 32400 32459).duration = "0h0m" := by
  refine ⟨fun s e _ => rfl, by decide, by decide⟩

/-- C4 (witness). -/
theorem c4_duration_truncated_witness :
    32400 ≤ 61200 ∧
    (mkEntry 32400 61200).duration =
      toString ((61200 - 32400) / 3600) ++ "h" ++
        toString ((61200 - 32400) % 3600 / 60) ++ "m" :=
  ⟨by decide, c4_duration_truncated.1 32400 61200 (by decide)⟩

/-- C5: redundant lifecycle calls are absorbed: `stop_tracking` while
idle returns the state unchanged with no record and no exception, and
`start_tracking` while active returns the state (start instant, timer)
unchanged. -/
theorem c5_redundant_noops :
    (∀ (st : TrackerState) (endAbs : Nat) (jf cf : Bool),
      st.is_tracking = false → stop_tracking st endAbs jf cf = (st, none)) ∧
    (∀ (st : TrackerState) (now : Nat),
      st.is_tracking = true → start_tracking st now = st) := by
  constructor
  · intro st endAbs jf cf h
    simp [stop_tracking, h]
  · intro st now h
    simp [start_tracking, h]

/-- C5 (witness). -/
theorem c5_redundant_noops_witness :
    idleState.is_tracking = false ∧
    stop_tracking idleState 0 false false = (idleState, none) ∧
    activeState.is_tracking = true ∧
    start_tracking activeState 5 = activeState :=
  ⟨rfl, c5_redundant_noops.1 idleState 0 false false rfl,
   rfl, c5_redundant_noops.2 activeState 5 rfl⟩

/-- C6: `schedule_weekly_csv`, for every now = (day, second-of-day): on
the target weekday (Friday, weekday 4) before or at 16:00 the next run is
today at 16:00; on the target weekday after 16:00 it is exactly 7 days
later at 16:00; on any other weekday it is the next upcoming Friday at
16:00 (a strictly future day, itself a Friday, with no Friday skipped in
between). -/
theorem c6_schedule_next_run (day tod : Nat) :
    (weekday day = 4 → tod ≤ 57600 →
      schedule_weekly_csv day tod = (day, 57600)) ∧
    (weekday day = 4 → 57600 < tod →
      schedule_weekly_csv day tod = (day + 7, 57600)) ∧
    (weekday day ≠ 4 →
      (schedule_weekly_csv day tod).2 = 57600 ∧
      weekday (schedule_weekly_csv day tod).1 = 4 ∧
      day < (schedule_weekly_csv day tod).1 ∧
      ∀ m : Nat, day < m → m < (schedule_weekly_csv day tod).1 →
        weekday m ≠ 4) := by
  have hw : weekday day < 7 := Nat.mod_lt _ (by norm_num)
  have key := days_ahead_eq (weekday day) hw
  simp only [schedule_weekly_csv, key, weekday] at *
  refine ⟨?_, ?_, ?_⟩
  · intro h4 hle
    simp only [h4]
    norm_num
    omega
  · intro h4 hgt
    simp only [h4]
    norm_num
    omega
  · intro hne
    refine ⟨trivial, ?_, ?_, ?_⟩
    · split_ifs with hc <;> omega
    · split_ifs with hc <;> omega
    · intro m hm1 hm2
      split_ifs at hm2 with hc <;> omega

/-- C6 (witness): day 8 (1970-01-09) is a Friday; at second 0 of that
day the next run is that same day at 16:00. -/
theorem c6_schedule_next_run_witness :
    weekday 8 = 4 ∧ (0 : Nat) ≤ 57600 ∧
    schedule_weekly_csv 8 0 = (8, 57600) :=
  ⟨by decide, by decide, (c6_schedule_next_run 8 0).1 (by decide) (by decide)⟩

/-- C7: `load_time_entries` returns `[]` when the store file is absent
and `[]` when its content is not valid JSON (the `JSONDecodeError`
handler); being a total function, it raises nothing in either case. -/
theorem c7_load_absent_or_corrupt :
    load_time_entries none = [] ∧
    ∀ msg : String, load_time_entries (some (Except.error msg)) = [] :=
  ⟨rfl, fun _ => rfl⟩

/-- C8: when the CSV row write raises, `append_to_csv` swallows the
exception, so `append_time_entry` finishes without error with the record
saved in the JSON store while the CSV mirror is unchanged — the two
diverge silently. -/
theorem c8_csv_divergence (st : TrackerState) (e : Entry) :
    (append_time_entry st e false true).2 = none ∧
    (append_time_entry st e false true).1.jsonFile =
      some (Except.ok (load_time_entries st.jsonFile ++ [e])) ∧
    (append_time_entry st e false true).1.csvRows = st.csvRows := by
  simp [append_time_entry, append_to_csv]

/-- C9: for a session whose end instant is on a later calendar day than
its start, the record's date is the START day, the two time fields are
time-of-day strings only, and the duration is computed from the full
timestamps (the true elapsed seconds); concretely for 23:00 → 01:00 the
end string reads earlier (Python `<`) than the start string while the
stored duration is "2h0m". -/
theorem c9_midnight_span :
    (∀ s e : Nat, s ≤ e → s / 86400 < e / 86400 →
      (mkEntry s e).date = fmtDMY (s / 86400) ∧
      (mkEntry s e).start_time = fmtHMS (s % 86400) ∧
      (mkEntry s e).end_time = fmtHMS (e % 86400) ∧
      (mkEntry s e).duration =
        toString ((e - s) / 3600) ++ "h" ++
          toString ((e - s) % 3600 / 60) ++ "m") ∧
    82800 / 86400 < 90000 / 86400 ∧
    strLt (mkEntry 82800 90000).end_time (mkEntry 82800 90000).start_time = true ∧
    strLt (mkEntry 82800 90000).start_time (mkEntry 82800 90000).end_time = false ∧
    (mkEntry 82800 90000).duration = "2h0m" := by
  refine ⟨fun s e _ _ => ⟨rfl, rfl, rfl, rfl⟩, by decide, by decide, by decide, by decide⟩

/-- C9 (witness). -/
theorem c9_midnight_span_witness :
    82800 ≤ 90000 ∧ 82800 / 86400 < 90000 / 86400 ∧
    (mkEntry 82800 90000).date = fmtDMY (82800 / 86400) ∧
    (mkEntry 82800 90000).end_time = fmtHMS (90000 % 86400) :=
  ⟨by decide, by decide,
   (c9_midnight_span.1 82800 90000 (by decide) (by decide)).1,
   (c9_midnight_span.1 82800 90000 (by decide) (by decide)).2.2.1⟩

/-- C10: whatever the outcome of the one-character read — a character or
a raised exception — `get_key_press` reapplies the saved terminal
settings (the `finally` block), so the terminal configuration after the
call equals the one before, and the read outcome is returned unchanged. -/
theorem c10_terminal_restored (init rawAttrs : Nat) (readRes : Except String Char) :
    applyTermOps init (get_key_press init rawAttrs readRes).1 = init ∧
    (get_key_press init rawAttrs readRes).2 = readRes := by
  cases readRes <;> exact ⟨rfl, rfl⟩

end TimeTracker
